import Mathlib

/-!
Verification of the MAPE-K control-loop core (mape-k-sample-implementation).

Shallow embedding, in Lean 4, of the parts of the repository that the
specification's testable properties talk about:

* the scenario analysis strategies
  (`src/mapek/domain/strategies/scenario_analysis_strategy.py`),
* the analyzer application service
  (`src/mapek/application/services/analyzer_service.py`) together with the
  `DataQualityChecker` of `src/mapek/domain/entities.py`,
* the command subsystem (`src/mapek/domain/commands/command_pattern.py`),
* the multi-system integration manager
  (`src/mapek/domain/adapters/legacy_integration.py`),
* the event bus (`src/mapek/domain/events/event_system.py`).

Python floats are modelled as exact rationals (`ℚ`); Python `None` as
`Option`; raised exceptions as explicit failure results.  Simulated I/O in
the source (`_get_current_value` returns the constant `2.5`,
`_set_parameter_value` only logs) is modelled exactly as the source writes
it: a constant current value and a trace of written values.
-/

namespace MapeK

/-- System state as used by the analysis strategies.  The `SystemState`
enum itself is imported by the strategies from `domain.models`; its member
names `NORMAL`, `WARNING`, `CRITICAL` are taken from the use sites in
`scenario_analysis_strategy.py`. -/
inductive SystemState where
  | NORMAL
  | WARNING
  | CRITICAL
deriving DecidableEq, Repr

/-- Threshold violation kinds used by the strategies
(`domain.entities.ThresholdViolationType` as used in
`scenario_analysis_strategy.py`). -/
inductive ViolationType where
  | HIGH_FLOW
  | HIGH_PRESSURE
  | LOW_PRESSURE
  | POOR_QUALITY
deriving DecidableEq, Repr

/-- A sensor datum as consumed by `AnalysisStrategy.analyze`: only the
`sensor_type` and `value` attributes are read by the strategies. -/
structure SensorData where
  sensor_type : String
  value : ℚ
deriving DecidableEq, Repr

/-- The part of `AnalysisContext` that the modelled strategies read:
`system_load` (a percentage) and the weather condition
`drought_severity` (documented in the source as a 0-1 scale). -/
structure AnalysisContext where
  system_load : ℚ
  drought_severity : ℚ
deriving DecidableEq, Repr

/-- Result record shared by the strategy `analyze` methods; the fields
modelled are the ones the specification's claims mention.
`critical_violations` is empty for strategies that do not produce it. -/
structure AnalysisResult where
  state : SystemState
  violations : List ViolationType
  critical_violations : List ViolationType
  quality_score : ℚ
  risk_score : ℚ
deriving DecidableEq, Repr

/-! ### NormalOperationStrategy -/

/-- Violation classification of one reading in
`NormalOperationStrategy.analyze` (thresholds from its `get_thresholds`:
`max_flow = 100`, `max_pressure = 4.0`, `min_quality = 6.0`). -/
def normalClassify (d : SensorData) : Option ViolationType :=
  if d.sensor_type = "flow" ∧ d.value > 100 then some .HIGH_FLOW
  else if d.sensor_type = "pressure" ∧ d.value > 4 then some .HIGH_PRESSURE
  else if d.sensor_type = "quality" ∧ d.value < 6 then some .POOR_QUALITY
  else none

/-- `NormalOperationStrategy.calculate_risk_score`:
`min(1.0, len(violations) * 0.2)`. -/
def normalRiskScore (violations : List ViolationType) : ℚ :=
  min 1 ((violations.length : ℚ) * (1/5))

/-- `NormalOperationStrategy.analyze`. -/
def normalOperationAnalyze (sensor_data : List SensorData) : AnalysisResult :=
  let violations := sensor_data.filterMap normalClassify
  let violation_penalty := (violations.length : ℚ) * (3/20)
  let quality_score := max 0 (1 - violation_penalty)
  let state :=
    if violations.length = 0 then SystemState.NORMAL
    else if violations.length ≤ 2 then SystemState.WARNING
    else SystemState.CRITICAL
  { state := state
    violations := violations
    critical_violations := []
    quality_score := quality_score
    risk_score := normalRiskScore violations }

/-! ### PeakDemandStrategy -/

/-- Violation classification of one reading in `PeakDemandStrategy.analyze`.
The analyze body rescales the already load-scaled bounds returned by its
`get_thresholds`, so the effective factor is applied twice, exactly as the
source composes them. -/
def peakClassify (load_factor : ℚ) (d : SensorData) : Option ViolationType :=
  if d.sensor_type = "flow" ∧
      d.value > 100 * (1 + load_factor * (3/10)) * (1 + load_factor * (3/10)) then
    some .HIGH_FLOW
  else if d.sensor_type = "pressure" ∧
      d.value > 4 * (1 - load_factor * (1/10)) * (1 - load_factor * (1/10)) then
    some .HIGH_PRESSURE
  else if d.sensor_type = "quality" ∧
      d.value < 6 * (1 + load_factor * (1/20)) * (1 + load_factor * (1/20)) then
    some .POOR_QUALITY
  else none

/-- `PeakDemandStrategy.calculate_risk_score`. -/
def peakRiskScore (violations : List ViolationType) (ctx : AnalysisContext) : ℚ :=
  min 1 ((violations.length : ℚ) * (1/4) +
    max 0 ((ctx.system_load / 100 - 4/5) * (3/10)))

/-- `PeakDemandStrategy.analyze` (quality and risk scores and violations;
its state rule is not referenced by the claims but is included for
completeness). -/
def peakDemandAnalyze (sensor_data : List SensorData) (ctx : AnalysisContext) :
    AnalysisResult :=
  let load_factor := ctx.system_load / 100
  let violations := sensor_data.filterMap (peakClassify load_factor)
  let violation_penalty := (violations.length : ℚ) * (1/5)
  let load_penalty := max 0 ((load_factor - 4/5) * (1/5))
  let quality_score := max 0 (1 - violation_penalty - load_penalty)
  let state :=
    if violations.length = 0 ∧ load_factor < 4/5 then SystemState.NORMAL
    else if violations.length ≤ 1 ∧ load_factor < 9/10 then SystemState.WARNING
    else SystemState.CRITICAL
  { state := state
    violations := violations
    critical_violations := []
    quality_score := quality_score
    risk_score := peakRiskScore violations ctx }

/-! ### EmergencyResponseStrategy -/

/-- Classification of one reading in `EmergencyResponseStrategy.analyze`:
`some (true, v)` is a critical violation, `some (false, v)` a non-critical
one.  Thresholds from its `get_thresholds`: flow `80 / critical 120`,
pressure `3.0 / critical 5.0`, quality `7.0 / critical 4.0`. -/
def emergencyClassify (d : SensorData) : Option (Bool × ViolationType) :=
  if d.sensor_type = "flow" then
    if d.value > 120 then some (true, .HIGH_FLOW)
    else if d.value > 80 then some (false, .HIGH_FLOW)
    else none
  else if d.sensor_type = "pressure" then
    if d.value > 5 then some (true, .HIGH_PRESSURE)
    else if d.value > 3 then some (false, .HIGH_PRESSURE)
    else none
  else if d.sensor_type = "quality" then
    if d.value < 4 then some (true, .POOR_QUALITY)
    else if d.value < 7 then some (false, .POOR_QUALITY)
    else none
  else none

/-- `EmergencyResponseStrategy.calculate_risk_score`:
`min(1.0, len(violations) * 0.4 * 1.5)` (called on the concatenation of
non-critical and critical violations). -/
def emergencyRiskScore (all_violations : List ViolationType) : ℚ :=
  min 1 ((all_violations.length : ℚ) * (2/5) * (3/2))

/-- `EmergencyResponseStrategy.analyze`. -/
def emergencyResponseAnalyze (sensor_data : List SensorData) : AnalysisResult :=
  let classified := sensor_data.filterMap emergencyClassify
  let violations := (classified.filter (fun c => !c.1)).map Prod.snd
  let critical_violations := (classified.filter (fun c => c.1)).map Prod.snd
  let critical_penalty := (critical_violations.length : ℚ) * (2/5)
  let violation_penalty := (violations.length : ℚ) * (1/4)
  let quality_score := max 0 (1 - critical_penalty - violation_penalty)
  let state :=
    if critical_violations.length > 0 then SystemState.CRITICAL
    else if violations.length > 0 then SystemState.WARNING
    else SystemState.NORMAL
  { state := state
    violations := violations
    critical_violations := critical_violations
    quality_score := quality_score
    risk_score := emergencyRiskScore (violations ++ critical_violations) }

/-! ### DroughtConditionsStrategy -/

/-- Classification of one reading in `DroughtConditionsStrategy.analyze`:
`Sum.inl` a violation, `Sum.inr` a conservation violation (a string in the
source).  Conservation factor `1 - drought_severity * 0.4` scales the flow
bounds `60` (conservation) and `80` (normal limit). -/
def droughtClassify (ds : ℚ) (d : SensorData) : Option (ViolationType ⊕ Unit) :=
  let conservation_factor := 1 - ds * (2/5)
  if d.sensor_type = "flow" then
    if d.value > 80 * conservation_factor then some (Sum.inl .HIGH_FLOW)
    else if d.value > 60 * conservation_factor then some (Sum.inr ())
    else none
  else if d.sensor_type = "pressure" then
    if d.value < 2 then some (Sum.inl .LOW_PRESSURE)
    else if d.value > 4 then some (Sum.inl .HIGH_PRESSURE)
    else none
  else if d.sensor_type = "quality" then
    if d.value < 15/2 then some (Sum.inl .POOR_QUALITY)
    else none
  else none

/-- `DroughtConditionsStrategy.calculate_risk_score`:
`min(1.0, len(violations) * 0.25 + drought_severity * 0.3)`. -/
def droughtRiskScore (violations : List ViolationType) (ctx : AnalysisContext) : ℚ :=
  min 1 ((violations.length : ℚ) * (1/4) + ctx.drought_severity * (3/10))

/-- `DroughtConditionsStrategy.analyze` (violations, quality and risk). -/
def droughtConditionsAnalyze (sensor_data : List SensorData)
    (ctx : AnalysisContext) : AnalysisResult :=
  let ds := ctx.drought_severity
  let classified := sensor_data.filterMap (droughtClassify ds)
  let violations := classified.filterMap (fun c => c.getLeft?)
  let conservation_count := (classified.filter (fun c => c.isRight)).length
  let conservation_penalty := (conservation_count : ℚ) * (1/10)
  let violation_penalty := (violations.length : ℚ) * (1/5)
  let drought_penalty := ds * (1/10)
  let quality_score :=
    max 0 (1 - violation_penalty - conservation_penalty - drought_penalty)
  let state :=
    if violations.length = 0 ∧ conservation_count ≤ 1 then SystemState.NORMAL
    else if violations.length ≤ 1 ∧ conservation_count ≤ 3 then SystemState.WARNING
    else SystemState.CRITICAL
  { state := state
    violations := violations
    critical_violations := []
    quality_score := quality_score
    risk_score := droughtRiskScore violations ctx }

/-! ### Analyzer application service

`Analyzer._analyze_no_timing` of
`src/mapek/application/services/analyzer_service.py`.  A node's raw data
dict is modelled as a list of named fields with optional values (`None`
becomes `Option.none`); the `node_id` and `timestamp` keys, skipped by the
loop, are not represented.  The initial quality score comes from
`DataQualityChecker.check_quality` (`domain/entities.py`), which returns
`1.0 - 0.2 * len(issues)`; the issue list depends on wall-clock freshness
and per-node history, so the issue count is a parameter here.  The
Prometheus counters of `mapek.logger` are modelled as present (the
`threshold_violations` guard is truthy), which is the configuration the
specification describes. -/

/-- One field of a node's data dict, as iterated by the analyzer loop. -/
structure FieldEntry where
  name : String
  value : Option ℚ
deriving DecidableEq, Repr

/-- Accumulator of the analyzer's per-field loop: the per-field statuses
written into `node_result`, the `bad_count`, and the running
`quality_score`. -/
structure NodeAccum where
  statuses : List (String × ℕ)
  bad_count : ℕ
  quality_score : ℚ
deriving DecidableEq, Repr

/-- One iteration of the analyzer's field loop.  `thr` is
`ThresholdRepository.get_threshold`: `none` means no threshold row exists,
in which case the field's status is `1` and nothing else changes. -/
def analyzeField (thr : String → Option (ℚ × ℚ)) (acc : NodeAccum)
    (f : FieldEntry) : NodeAccum :=
  match f.value with
  | none =>
      { statuses := acc.statuses ++ [(f.name, 0)]
        bad_count := acc.bad_count + 1
        quality_score := acc.quality_score - 1/5 }
  | some v =>
      match thr f.name with
      | some (min_val, max_val) =>
          let status : ℕ := if min_val ≤ v ∧ v ≤ max_val then 1 else 0
          { statuses := acc.statuses ++ [(f.name, status)]
            bad_count := acc.bad_count + (if status = 0 then 1 else 0)
            quality_score := acc.quality_score }
      | none =>
          { statuses := acc.statuses ++ [(f.name, 1)]
            bad_count := acc.bad_count
            quality_score := acc.quality_score }

/-- The analyzer's state rule:
`'normal' if quality_score > 0.8 else 'alert' if bad_count == 1 or
quality_score > 0.5 else 'emergency'`. -/
def analyzerState (quality_score : ℚ) (bad_count : ℕ) : String :=
  if quality_score > 4/5 then "normal"
  else if bad_count = 1 ∨ quality_score > 1/2 then "alert"
  else "emergency"

/-- The field loop and state rule of `Analyzer._analyze_no_timing` for one
node, reached only after `SensorReading(**data)` validated the input:
field statuses plus the derived state.  `issues` is the length of the
`DataQualityChecker` issue list for this reading. -/
def analyzeNode (issues : ℕ) (thr : String → Option (ℚ × ℚ))
    (fields : List FieldEntry) : NodeAccum × String :=
  let init : NodeAccum :=
    { statuses := [], bad_count := 0, quality_score := 1 - (issues : ℚ) * (1/5) }
  let acc := fields.foldl (analyzeField thr) init
  (acc, analyzerState acc.quality_score acc.bad_count)

/-- The pydantic range validators of `SensorReading`
(`mapek/domain/models.py`): `water_level` in [0, 500], `temperature` in
[-10, 60], `tds_voltage` in [0, 5], `flow_rate` in [0, 100]; a null value
is accepted (the fields are `Optional`), and keys outside the model's
fields are ignored by the constructor and therefore unvalidated. -/
def fieldValueValid (name : String) (v : ℚ) : Bool :=
  if name = "water_level" then decide (0 ≤ v ∧ v ≤ 500)
  else if name = "temperature" then decide (-10 ≤ v ∧ v ≤ 60)
  else if name = "tds_voltage" then decide (0 ≤ v ∧ v ≤ 5)
  else if name = "flow_rate" then decide (0 ≤ v ∧ v ≤ 100)
  else true

/-- Validity of one field of a node's data under the `SensorReading`
validators. -/
def fieldValid (f : FieldEntry) : Bool :=
  match f.value with
  | none => true
  | some v => fieldValueValid f.name v

/-- Validity of a whole node's data under `SensorReading(**data)` (the
`node_id` and `timestamp` validators concern the two keys the field loop
skips; `timestamp` freshness is wall-clock and outside the model). -/
def readingValid (fields : List FieldEntry) : Bool :=
  fields.all fieldValid

/-- The per-node body of `Analyzer._analyze_no_timing` including the
`SensorReading(**data)` validation gate: a pydantic `ValidationError` is
caught by the surrounding `try` and the node is skipped (`none`, no
result appended); otherwise the field loop and state rule run. -/
def analyzeNodeChecked (issues : ℕ) (thr : String → Option (ℚ × ℚ))
    (fields : List FieldEntry) : Option (NodeAccum × String) :=
  if readingValid fields then some (analyzeNode issues thr fields) else none

/-- The quality-score formula stated by the specification (claim C3),
written from the spec text, for comparison with the code: one fixed
penalty per field, `0.2` for a null value and `0.15` for a threshold
breach, summed and clamped at zero. -/
def specQualityScore (thr : String → Option (ℚ × ℚ))
    (fields : List FieldEntry) : ℚ :=
  let penalty (f : FieldEntry) : ℚ :=
    match f.value with
    | none => 1/5
    | some v =>
        match thr f.name with
        | some (min_val, max_val) => if min_val ≤ v ∧ v ≤ max_val then 0 else 3/20
        | none => 0
  max 0 (1 - (fields.map penalty).sum)

/-- Count of null-valued fields in a node's data. -/
def nullFieldCount (fields : List FieldEntry) : ℕ :=
  (fields.filter (fun f => f.value = none)).length

/-! ### Command subsystem

`src/mapek/domain/commands/command_pattern.py`.  Commands are modelled on
`SystemParameterAdjustmentCommand`, the concrete reversible command the
factory builds composites from.  Its simulated plant reads
(`_get_current_value`) always return `2.5` and its writes
(`_set_parameter_value`) have no observable effect beyond the call itself,
so execution is modelled as the updated command, a success flag, and the
trace of values written (each write in the source is followed by an
inter-step pause, so an empty trace also means no pause happened). -/

/-- `CommandStatus`. -/
inductive CommandStatus where
  | PENDING
  | EXECUTING
  | COMPLETED
  | FAILED
  | UNDONE
  | ROLLED_BACK
deriving DecidableEq, Repr

/-- A `SystemParameterAdjustmentCommand`.  `prereq_statuses` holds the
statuses of the commands in its `prerequisites` list (the only attribute
of theirs that `can_execute` reads). -/
structure ParamCmd where
  id : ℕ
  parameter_name : String
  new_value : ℚ
  previous_value : Option ℚ := none
  status : CommandStatus := .PENDING
  prereq_statuses : List CommandStatus := []
deriving DecidableEq, Repr

/-- `SystemParameterAdjustmentCommand._get_safety_limits`; `none` models
the `(-inf, inf)` default for unknown parameters. -/
def safetyLimits (name : String) : Option (ℚ × ℚ) :=
  if name = "pressure" then some (0, 6)
  else if name = "flow_rate" then some (0, 200)
  else if name = "valve_position" then some (0, 100)
  else if name = "pump_speed" then some (0, 100)
  else if name = "temperature" then some (-5, 50)
  else none

/-- The safety-envelope check at the top of
`SystemParameterAdjustmentCommand.execute`. -/
def withinLimits (name : String) (v : ℚ) : Bool :=
  match safetyLimits name with
  | some (min_val, max_val) => decide (min_val ≤ v ∧ v ≤ max_val)
  | none => true

/-- The constant returned by the simulated `_get_current_value`. -/
def currentValueSim : ℚ := 5/2

/-- Outcome of running a command body: the updated command, the `success`
flag of the returned `CommandResult`, and the trace of parameter writes. -/
structure ExecOutcome where
  cmd : ParamCmd
  success : Bool
  writes : List ℚ
deriving DecidableEq, Repr

/-- The gradual-adjustment write trace: `steps = max(1, int(|target - cur|
/ 0.1))`, `step_size = (target - cur)/steps`, writing
`cur + step_size * (i+1)` for `i = 0 .. steps-1`. -/
def gradualWrites (cur target : ℚ) : List ℚ :=
  let steps := max 1 (Int.toNat ⌊|target - cur| * 10⌋)
  let step_size := (target - cur) / (steps : ℚ)
  (List.range steps).map (fun i => cur + step_size * ((i : ℚ) + 1))

/-- `SystemParameterAdjustmentCommand.execute`: refuse (no state change,
no write) when the target is outside the safety envelope; otherwise store
the current value as `previous_value`, write the intermediate values, and
finish `COMPLETED`. -/
def paramExecute (c : ParamCmd) : ExecOutcome :=
  if withinLimits c.parameter_name c.new_value then
    { cmd := { c with previous_value := some currentValueSim,
                      status := .COMPLETED }
      success := true
      writes := gradualWrites currentValueSim c.new_value }
  else
    { cmd := c, success := false, writes := [] }

/-- `SystemParameterAdjustmentCommand.undo`: fails (unchanged) when no
previous value is stored, otherwise gradually restores it and finishes
`UNDONE`. -/
def paramUndo (c : ParamCmd) : ExecOutcome :=
  match c.previous_value with
  | none => { cmd := c, success := false, writes := [] }
  | some prev =>
      { cmd := { c with status := .UNDONE }
        success := true
        writes := gradualWrites currentValueSim prev }

/-- `SystemParameterAdjustmentCommand.can_undo`. -/
def paramCanUndo (c : ParamCmd) : Bool :=
  c.status == .COMPLETED && c.previous_value.isSome

/-- `Command.can_execute`: all prerequisites are `COMPLETED`. -/
def canExecute (c : ParamCmd) : Bool :=
  c.prereq_statuses.all (fun s => s == .COMPLETED)

/-! #### CompositeCommand (sequential strategy) -/

/-- The sequential loop of `CompositeCommand.execute`: run sub-commands in
order, appending each to `executed_commands` before checking its result,
and stop at the first failure.  Returns the executed commands (updated),
the overall success flag, and the untouched remainder. -/
def execUntilFail : List ParamCmd → List ParamCmd × Bool × List ParamCmd
  | [] => ([], true, [])
  | c :: rest =>
      let out := paramExecute c
      if out.success then
        let (ex, ok, rem) := execUntilFail rest
        (out.cmd :: ex, ok, rem)
      else
        ([out.cmd], false, rest)

/-- `CompositeCommand._rollback_executed_commands`, acting on the reversed
`executed_commands` list: undo each command whose `can_undo()` holds.
Returns the updated (still reversed) list and the ids undone, in undo
order. -/
def rollbackRev : List ParamCmd → List ParamCmd × List ℕ
  | [] => ([], [])
  | c :: rest =>
      let (rest2, log) := rollbackRev rest
      if paramCanUndo c then
        ((paramUndo c).cmd :: rest2, c.id :: log)
      else
        (c :: rest2, log)

/-- `CompositeCommand._rollback_executed_commands` on the executed list in
execution order. -/
def rollbackExecuted (executed : List ParamCmd) : List ParamCmd × List ℕ :=
  let (rev, log) := rollbackRev executed.reverse
  (rev.reverse, log)

/-- A `CompositeCommand` (sequential strategy) over parameter-adjustment
sub-commands. -/
structure Composite where
  status : CommandStatus := .PENDING
  sub_commands : List ParamCmd
deriving DecidableEq, Repr

/-- Outcome of `CompositeCommand.execute`: the updated composite, the
`success` flag of its `CommandResult`, and the ids of the sub-commands
rolled back, in rollback order. -/
structure CompositeOutcome where
  composite : Composite
  success : Bool
  rollback_log : List ℕ
deriving DecidableEq, Repr

/-- `CompositeCommand.execute` with the `"sequential"` strategy: fail-fast
with rollback of everything executed so far (the failed sub-command is in
`executed_commands` too, and is undone only if its `can_undo()` holds).
On success the composite becomes `COMPLETED`; the result-failure path
returns a failing `CommandResult` without changing the composite's
status. -/
def compositeExecute (c : Composite) : CompositeOutcome :=
  let (ex, ok, rem) := execUntilFail c.sub_commands
  if ok then
    { composite := { status := .COMPLETED, sub_commands := ex ++ rem }
      success := true
      rollback_log := [] }
  else
    let (ex2, log) := rollbackExecuted ex
    { composite := { status := c.status, sub_commands := ex2 ++ rem }
      success := false
      rollback_log := log }

/-! #### CommandInvoker -/

/-- `CommandInvoker` bookkeeping state. -/
structure Invoker where
  command_history : List ParamCmd := []
  undo_stack : List ParamCmd := []
  redo_stack : List ParamCmd := []
  max_history_size : ℕ := 1000
deriving DecidableEq, Repr

/-- Outcome of `CommandInvoker.execute_command`: the updated invoker, the
command as left by the call, the result's `success` flag, and whether the
command's `execute` was invoked at all. -/
structure InvokeOutcome where
  invoker : Invoker
  cmd : ParamCmd
  success : Bool
  execute_invoked : Bool
deriving DecidableEq, Repr

/-- `CommandInvoker.execute_command`: refuse when `can_execute()` fails;
otherwise mark the command `EXECUTING`, run it, and on success append it
to the history (evicting the oldest entry past `max_history_size`) and,
when undoable, push it on the undo stack and clear the redo stack.  The
result-failure branch changes no invoker state and does not touch the
command's status. -/
def executeCommand (inv : Invoker) (c : ParamCmd) : InvokeOutcome :=
  if canExecute c then
    let out := paramExecute { c with status := .EXECUTING }
    if out.success then
      let hist := inv.command_history ++ [out.cmd]
      let hist2 := if hist.length > inv.max_history_size then hist.drop 1 else hist
      if paramCanUndo out.cmd then
        { invoker := { inv with command_history := hist2,
                                undo_stack := inv.undo_stack ++ [out.cmd],
                                redo_stack := [] }
          cmd := out.cmd, success := true, execute_invoked := true }
      else
        { invoker := { inv with command_history := hist2 }
          cmd := out.cmd, success := true, execute_invoked := true }
    else
      { invoker := inv, cmd := out.cmd, success := false, execute_invoked := true }
  else
    { invoker := inv, cmd := c, success := false, execute_invoked := false }

/-- `CommandInvoker.undo_last_command`: pop the undo stack (its top is the
last element), run the command's `undo`, push it on the redo stack on
success and back on the undo stack on failure. -/
def undoLastCommand (inv : Invoker) : Invoker × Bool :=
  match inv.undo_stack.getLast? with
  | none => (inv, false)
  | some c =>
      let rest := inv.undo_stack.dropLast
      let out := paramUndo c
      if out.success then
        ({ inv with undo_stack := rest,
                    redo_stack := inv.redo_stack ++ [out.cmd] }, true)
      else
        ({ inv with undo_stack := rest ++ [out.cmd] }, false)

/-- `CommandInvoker.redo_last_command`: pop the redo stack, run the
command's `execute`, push it on the undo stack on success and back on the
redo stack on failure. -/
def redoLastCommand (inv : Invoker) : Invoker × Bool :=
  match inv.redo_stack.getLast? with
  | none => (inv, false)
  | some c =>
      let rest := inv.redo_stack.dropLast
      let out := paramExecute c
      if out.success then
        ({ inv with redo_stack := rest,
                    undo_stack := inv.undo_stack ++ [out.cmd] }, true)
      else
        ({ inv with redo_stack := rest ++ [out.cmd] }, false)

/-! ### Multi-system integration manager

`MultiSystemIntegrationManager` of
`src/mapek/domain/adapters/legacy_integration.py`.
`read_all_sensors` tags every reading's metadata with its source system's
declared priority and then calls `_deduplicate_sensor_readings`, which
folds the readings into a dict keyed by `sensor_id`, replacing an entry
only when the incoming reading's priority is strictly higher. -/

/-- A canonical sensor reading as seen by the deduplication step: the
`sensor_id` key and the `system_priority` metadata written by
`read_all_sensors`, plus the carried value. -/
structure Reading where
  sensor_id : String
  system_priority : ℤ
  value : ℚ
deriving DecidableEq, Repr

/-- One step of the deduplication fold: the dict (an insertion-ordered
association list with at most one entry per `sensor_id`) either gains the
reading as a new entry or replaces the same-id entry when the new
reading's priority is strictly higher. -/
def insertReading (m : List Reading) (r : Reading) : List Reading :=
  if m.any (fun x => x.sensor_id == r.sensor_id) then
    m.map (fun x =>
      if x.sensor_id == r.sensor_id && r.system_priority > x.system_priority
      then r else x)
  else m ++ [r]

/-- `MultiSystemIntegrationManager._deduplicate_sensor_readings` (the
values of the dict built by its loop, in key-insertion order). -/
def deduplicateSensorReadings (readings : List Reading) : List Reading :=
  readings.foldl insertReading []

/-! ### Event bus

`EventSubject.notify` / `DigitalTwinEventBus.publish` of
`src/mapek/domain/events/event_system.py`.  An observer's `on_event` is
modelled as a function returning `Except String Unit`: `Except.error`
models the coroutine raising.  `notify` gathers the observers with
`return_exceptions=True`, so each observer's outcome is recorded and no
exception propagates; `publish` runs filters (any rejection
short-circuits), then transformers in order, then `notify`, and returns
`True`. -/

/-- An event as far as the modelled pipeline reads it. -/
structure Event where
  event_type : String
  source : String
  priority : ℕ
deriving DecidableEq, Repr

/-- `EventSubject.notify` restricted to the observers interested in the
event's type: every observer runs, and each outcome (normal return or
raised error) is collected independently, as `asyncio.gather` with
`return_exceptions=True` does. -/
def notifyObservers (observers : List (Event → Except String Unit))
    (e : Event) : List (Except String Unit) :=
  observers.map (fun o => o e)

/-- `DigitalTwinEventBus.publish`: returns `false` with no delivery when
some filter rejects the event; otherwise applies the transformers in
registration order and notifies the observers, returning `true` together
with the per-observer outcomes. -/
def publish (filters : List (Event → Bool))
    (transformers : List (Event → Event))
    (observers : List (Event → Except String Unit))
    (e : Event) : Bool × List (Except String Unit) :=
  if filters.all (fun f => f e) then
    let e2 := transformers.foldl (fun ev t => t ev) e
    (true, notifyObservers observers e2)
  else
    (false, [])

/-! ### Auxiliary definitions used by the theorem statements -/

/-- Both scores of an analysis result lie in the unit interval. -/
def scoresIn01 (r : AnalysisResult) : Prop :=
  0 ≤ r.quality_score ∧ r.quality_score ≤ 1 ∧ 0 ≤ r.risk_score ∧ r.risk_score ≤ 1

/-- A concrete threshold table (one row, `temperature` in (0, 50))
standing for a `ThresholdRepository` instance in concrete evaluations;
its ceiling is deliberately below the pydantic bound 60 so that a
validated reading can still breach it. -/
def thrDemo (name : String) : Option (ℚ × ℚ) :=
  if name = "temperature" then some (0, 50) else none

/-- A successfully executed parameter command: `previous_value` captured
from the simulated plant and status `COMPLETED`. -/
def execCompleted (x : ParamCmd) : ParamCmd :=
  { x with previous_value := some currentValueSim, status := .COMPLETED }

/-- A parameter command after it was executed and then rolled back:
`previous_value` captured and status `UNDONE`. -/
def rolledBackCmd (x : ParamCmd) : ParamCmd :=
  { x with previous_value := some currentValueSim, status := .UNDONE }

/-! ## Theorems -/

theorem max_unit_mem (x y : ℚ) (hx : x ≤ 1) (hy : 0 ≤ y) :
    0 ≤ max 0 x ∧ max 0 x ≤ 1 ∧ 0 ≤ min 1 y ∧ min 1 y ≤ 1 :=
  ⟨le_max_left 0 x, max_le (by norm_num) hx, le_min (by norm_num) hy,
    min_le_left 1 y⟩

/-- C1 fails as stated: `DroughtConditionsStrategy.analyze` clamps neither
score against a hostile context.  With `drought_severity = -10` (the
weather dict is unconstrained) and no readings, the risk score is
`min(1, 0 + (-10)*0.3) = -3 < 0` and the quality score is
`max(0, 1 - 0 - 0 - (-10)*0.1) = 2 > 1`. -/
theorem C1_counterexample :
    (droughtConditionsAnalyze [] ⟨50, -10⟩).risk_score < 0 ∧
    (droughtConditionsAnalyze [] ⟨50, -10⟩).quality_score > 1 := by
  norm_num [droughtConditionsAnalyze, droughtRiskScore, List.filterMap,
    min_def, max_def]

/-- C1 (amended): when the context's `drought_severity` is nonnegative
(its documented scale is 0-1), every analysis strategy's `analyze`
produces `quality_score ∈ [0,1]` and `risk_score ∈ [0,1]`, for every
reading list and every system load.  (The Analyzer service's per-node
results contain no quality or risk score fields at all.) -/
theorem C1_amended (sensor_data : List SensorData) (ctx : AnalysisContext)
    (h0 : 0 ≤ ctx.drought_severity) :
    scoresIn01 (normalOperationAnalyze sensor_data) ∧
    scoresIn01 (peakDemandAnalyze sensor_data ctx) ∧
    scoresIn01 (emergencyResponseAnalyze sensor_data) ∧
    scoresIn01 (droughtConditionsAnalyze sensor_data ctx) := by
  have hds : (0:ℚ) ≤ ctx.drought_severity * (1/10) :=
    mul_nonneg h0 (by norm_num)
  refine ⟨?_, ?_, ?_, ?_⟩
  · simp only [scoresIn01, normalOperationAnalyze, normalRiskScore]
    exact max_unit_mem _ _ (sub_le_self 1 (by positivity)) (by positivity)
  · simp only [scoresIn01, peakDemandAnalyze, peakRiskScore]
    refine max_unit_mem _ _ ?_ ?_
    · have hvp : (0:ℚ) ≤
          ((sensor_data.filterMap (peakClassify (ctx.system_load / 100))).length : ℚ)
            * (1/5) := by positivity
      have hlp : (0:ℚ) ≤ max 0 ((ctx.system_load / 100 - 4/5) * (1/5)) :=
        le_max_left _ _
      linarith
    · exact add_nonneg (by positivity) (le_max_left _ _)
  · simp only [scoresIn01, emergencyResponseAnalyze, emergencyRiskScore]
    refine max_unit_mem _ _ ?_ (by positivity)
    have hcp : (0:ℚ) ≤
        ((((sensor_data.filterMap emergencyClassify).filter
          (fun c => c.1)).map Prod.snd).length : ℚ) * (2/5) := by positivity
    have hvp : (0:ℚ) ≤
        ((((sensor_data.filterMap emergencyClassify).filter
          (fun c => !c.1)).map Prod.snd).length : ℚ) * (1/4) := by positivity
    linarith
  · simp only [scoresIn01, droughtConditionsAnalyze, droughtRiskScore]
    refine max_unit_mem _ _ ?_
      (add_nonneg (by positivity) (mul_nonneg h0 (by norm_num)))
    have hvp : (0:ℚ) ≤
        (((sensor_data.filterMap (droughtClassify ctx.drought_severity)).filterMap
          (fun c => c.getLeft?)).length : ℚ) * (1/5) := by positivity
    have hcp : (0:ℚ) ≤
        (((sensor_data.filterMap (droughtClassify ctx.drought_severity)).filter
          (fun c => c.isRight)).length : ℚ) * (1/10) := by positivity
    linarith

/-- Witness for C1 (amended) at a concrete input: one flow reading of 150
under a context with load 50 and drought severity one half. -/
theorem C1_amended_witness :
    (0:ℚ) ≤ ((⟨50, 1/2⟩ : AnalysisContext)).drought_severity ∧
    (scoresIn01 (normalOperationAnalyze [⟨"flow", 150⟩]) ∧
     scoresIn01 (peakDemandAnalyze [⟨"flow", 150⟩] ⟨50, 1/2⟩) ∧
     scoresIn01 (emergencyResponseAnalyze [⟨"flow", 150⟩]) ∧
     scoresIn01 (droughtConditionsAnalyze [⟨"flow", 150⟩] ⟨50, 1/2⟩)) :=
  ⟨by norm_num, C1_amended [⟨"flow", 150⟩] ⟨50, 1/2⟩ (by norm_num)⟩

/-- C2 fails as stated: for a single flow reading of 150 under
`NormalOperationStrategy` there is no critical violation and the quality
score is `0.85 > 0.8`, so the claimed rule demands `NORMAL`, but the code
determines the state from the violation count alone and yields
`WARNING`. -/
theorem C2_counterexample :
    (normalOperationAnalyze [⟨"flow", 150⟩]).critical_violations = [] ∧
    (normalOperationAnalyze [⟨"flow", 150⟩]).quality_score > 4/5 ∧
    (normalOperationAnalyze [⟨"flow", 150⟩]).state = SystemState.WARNING ∧
    (normalOperationAnalyze [⟨"flow", 150⟩]).state ≠ SystemState.NORMAL := by
  refine ⟨?_, ?_, ?_, ?_⟩ <;>
    first
      | decide
      | norm_num [normalOperationAnalyze, normalClassify, List.filterMap, max_def]

/-- C2 (amended): each analysis operation determines its state by its own
rule.  `EmergencyResponseStrategy` does force `CRITICAL` on any critical
violation and otherwise yields `WARNING` exactly when a non-critical
violation exists; `NormalOperationStrategy` ignores the quality score and
maps 0 violations to `NORMAL`, 1-2 to `WARNING` and 3 or more to
`CRITICAL`; the Analyzer service maps a node to `normal` when its quality
score exceeds 0.8, to `alert` when `bad_count = 1` or the quality score
exceeds 0.5, and to `emergency` otherwise. -/
theorem C2_amended (sensor_data : List SensorData) (issues : ℕ)
    (thr : String → Option (ℚ × ℚ)) (fields : List FieldEntry) :
    (normalOperationAnalyze sensor_data).state =
      (if (normalOperationAnalyze sensor_data).violations.length = 0 then
        SystemState.NORMAL
       else if (normalOperationAnalyze sensor_data).violations.length ≤ 2 then
        SystemState.WARNING
       else SystemState.CRITICAL) ∧
    (emergencyResponseAnalyze sensor_data).state =
      (if (emergencyResponseAnalyze sensor_data).critical_violations.length > 0 then
        SystemState.CRITICAL
       else if (emergencyResponseAnalyze sensor_data).violations.length > 0 then
        SystemState.WARNING
       else SystemState.NORMAL) ∧
    (analyzeNode issues thr fields).2 =
      (if (analyzeNode issues thr fields).1.quality_score > 4/5 then "normal"
       else if (analyzeNode issues thr fields).1.bad_count = 1 ∨
           (analyzeNode issues thr fields).1.quality_score > 1/2 then "alert"
       else "emergency") :=
  ⟨rfl, rfl, rfl⟩

theorem analyzeField_foldl_quality (thr : String → Option (ℚ × ℚ))
    (fields : List FieldEntry) :
    ∀ acc : NodeAccum,
      (fields.foldl (analyzeField thr) acc).quality_score =
        acc.quality_score - (nullFieldCount fields : ℚ) * (1/5) := by
  induction fields with
  | nil => intro acc; simp [nullFieldCount]
  | cons f rest ih =>
      intro acc
      rw [List.foldl_cons, ih]
      cases hv : f.value with
      | none =>
          simp only [analyzeField, hv, nullFieldCount, List.filter_cons, hv,
            decide_eq_true_eq, if_pos, List.length_cons]
          push_cast
          ring
      | some v =>
          cases hthr : thr f.name with
          | none =>
              simp [analyzeField, hv, hthr, nullFieldCount, List.filter_cons]
          | some p =>
              obtain ⟨min_val, max_val⟩ := p
              simp [analyzeField, hv, hthr, nullFieldCount, List.filter_cons]

/-- C3 fails as stated: a node with a null `water_level` and
`temperature = 55` passes every `SensorReading` validator (55 is within
the pydantic bound 60), so the field loop runs; the temperature breaches
its threshold row `(0, 50)`, yet the code's quality score is
`1 - 0.2 = 0.8` (the breach only increments `bad_count`, it carries no
0.15 quality penalty, and nothing clamps), while the spec's formula gives
`max(0, 1 - 0.2 - 0.15) = 0.65`. -/
theorem C3_counterexample :
    readingValid [⟨"water_level", none⟩, ⟨"temperature", some 55⟩] = true ∧
    (analyzeNodeChecked 0 thrDemo
        [⟨"water_level", none⟩, ⟨"temperature", some 55⟩]).map
      (fun r => r.1.quality_score) = some (4/5) ∧
    specQualityScore thrDemo
      [⟨"water_level", none⟩, ⟨"temperature", some 55⟩] = 13/20 ∧
    ((4:ℚ)/5 ≠ 13/20) := by
  have hvalid :
      readingValid [⟨"water_level", none⟩, ⟨"temperature", some 55⟩] = true := by
    simp [readingValid, fieldValid, fieldValueValid]
    norm_num
  refine ⟨hvalid, ?_, ?_, by norm_num⟩
  · simp only [analyzeNodeChecked, hvalid, if_true]
    norm_num [analyzeNode, analyzeField, thrDemo, List.foldl]
  · norm_num [specQualityScore, thrDemo, List.map, max_def]

/-- C3 (amended): for a node that passes `SensorReading` validation (so
the field loop is reached at all), the Analyzer's quality score equals
the `DataQualityChecker` base score `1 - 0.2 * issues` minus `0.2` per
null-valued field; threshold breaches do not lower it and no clamping to
0 is applied.  In `NormalOperationStrategy` the quality score equals
`1 - 0.15 * (number of threshold violations)` clamped to at least 0. -/
theorem C3_amended (issues : ℕ) (thr : String → Option (ℚ × ℚ))
    (fields : List FieldEntry) (sensor_data : List SensorData)
    (h : readingValid fields = true) :
    (analyzeNodeChecked issues thr fields).map (fun r => r.1.quality_score) =
      some (1 - (issues : ℚ) * (1/5) - (nullFieldCount fields : ℚ) * (1/5)) ∧
    (normalOperationAnalyze sensor_data).quality_score =
      max 0 (1 - ((normalOperationAnalyze sensor_data).violations.length : ℚ)
        * (3/20)) := by
  constructor
  · simp only [analyzeNodeChecked, h, if_true, Option.map_some']
    rw [show (analyzeNode issues thr fields).1.quality_score =
        1 - (issues : ℚ) * (1/5) - (nullFieldCount fields : ℚ) * (1/5) from by
      simpa [analyzeNode] using analyzeField_foldl_quality thr fields _]
  · rfl

/-- Witness for C3 (amended) at the validated concrete node (null
`water_level`, `temperature = 55`, three quality-checker issues) and one
flow reading of 150. -/
theorem C3_amended_witness :
    readingValid [⟨"water_level", none⟩, ⟨"temperature", some 55⟩] = true ∧
    ((analyzeNodeChecked 3 thrDemo
        [⟨"water_level", none⟩, ⟨"temperature", some 55⟩]).map
      (fun r => r.1.quality_score) =
        some (1 - ((3 : ℕ) : ℚ) * (1/5) -
          ((nullFieldCount [⟨"water_level", none⟩, ⟨"temperature", some 55⟩] : ℕ) : ℚ)
            * (1/5)) ∧
     (normalOperationAnalyze [⟨"flow", 150⟩]).quality_score =
      max 0 (1 - ((normalOperationAnalyze [⟨"flow", 150⟩]).violations.length : ℚ)
        * (3/20))) := by
  have hvalid :
      readingValid [⟨"water_level", none⟩, ⟨"temperature", some 55⟩] = true := by
    simp [readingValid, fieldValid, fieldValueValid]
    norm_num
  exact ⟨hvalid, C3_amended 3 thrDemo _ _ hvalid⟩

theorem paramExecute_ok (x : ParamCmd)
    (h : withinLimits x.parameter_name x.new_value = true) :
    paramExecute x =
      { cmd := execCompleted x, success := true
        writes := gradualWrites currentValueSim x.new_value } := by
  simp [paramExecute, h, execCompleted]

theorem paramExecute_fail (x : ParamCmd)
    (h : withinLimits x.parameter_name x.new_value = false) :
    paramExecute x = { cmd := x, success := false, writes := [] } := by
  simp [paramExecute, h]

theorem paramCanUndo_execCompleted (x : ParamCmd) :
    paramCanUndo (execCompleted x) = true := by
  simp [paramCanUndo, execCompleted]

theorem paramUndo_execCompleted (x : ParamCmd) :
    paramUndo (execCompleted x) =
      { cmd := rolledBackCmd x, success := true
        writes := gradualWrites currentValueSim currentValueSim } := by
  simp [paramUndo, execCompleted, rolledBackCmd]

theorem execUntilFail_append (pre : List ParamCmd) (c : ParamCmd)
    (post : List ParamCmd)
    (hpre : ∀ x ∈ pre, withinLimits x.parameter_name x.new_value = true)
    (hc : withinLimits c.parameter_name c.new_value = false) :
    execUntilFail (pre ++ c :: post) =
      (pre.map execCompleted ++ [c], false, post) := by
  induction pre with
  | nil =>
      simp [execUntilFail, paramExecute_fail c hc]
  | cons x rest ih =>
      have hx := hpre x (by simp)
      have ih2 := ih (fun y hy => hpre y (by simp [hy]))
      simp [execUntilFail, paramExecute_ok x hx, ih2]

theorem rollbackRev_execCompleted (l : List ParamCmd) :
    rollbackRev (l.map execCompleted) =
      (l.map rolledBackCmd, l.map ParamCmd.id) := by
  induction l with
  | nil => simp [rollbackRev]
  | cons x rest ih =>
      simp only [List.map_cons, rollbackRev, ih, paramCanUndo_execCompleted,
        paramUndo_execCompleted, if_true]
      simp [execCompleted]

theorem rollbackExecuted_spec (pre : List ParamCmd) (c : ParamCmd)
    (hc : paramCanUndo c = false) :
    rollbackExecuted (pre.map execCompleted ++ [c]) =
      (pre.map rolledBackCmd ++ [c], (pre.map ParamCmd.id).reverse) := by
  unfold rollbackExecuted
  rw [List.reverse_append]
  simp only [List.reverse_cons, List.reverse_nil, List.nil_append,
    List.singleton_append, ← List.map_reverse]
  rw [show rollbackRev (c :: List.map execCompleted pre.reverse) =
      (c :: (rollbackRev (List.map execCompleted pre.reverse)).1,
        (rollbackRev (List.map execCompleted pre.reverse)).2) from by
    simp [rollbackRev, hc]]
  rw [rollbackRev_execCompleted]
  simp [List.map_reverse]

/-- C4: for a sequential `CompositeCommand` whose sub-commands are
parameter adjustments, if all sub-commands before `c` are within their
safety envelopes and `c` is the first to fail (its value is out of
envelope, and like any not-yet-completed command it reports
`can_undo() = false`), then `execute` returns a failing result, exactly
the previously executed sub-commands are rolled back (status `UNDONE`),
in reverse execution order (witnessed by the rollback log of command
ids), the failed sub-command and the remainder are untouched, and the
composite's own status is unchanged by this result-failure path. -/
theorem C4_theorem (pre : List ParamCmd) (c : ParamCmd) (post : List ParamCmd)
    (st : CommandStatus)
    (hpre : ∀ x ∈ pre, withinLimits x.parameter_name x.new_value = true)
    (hc : withinLimits c.parameter_name c.new_value = false)
    (hst : c.status = CommandStatus.PENDING) :
    compositeExecute ⟨st, pre ++ c :: post⟩ =
      { composite := ⟨st, pre.map rolledBackCmd ++ c :: post⟩
        success := false
        rollback_log := (pre.map ParamCmd.id).reverse } := by
  have hcu : paramCanUndo c = false := by
    simp [paramCanUndo, hst]
  unfold compositeExecute
  rw [execUntilFail_append pre c post hpre hc]
  simp [rollbackExecuted_spec pre c hcu]

/-- Witness for C4 at a concrete input: sub-commands set pressure to 3 and
4 (within the (0,6) envelope), then flow_rate to 500 (outside (0,200)),
then pump_speed to 10.  The first two are rolled back in reverse order
(log `[2, 1]`), the rest is untouched, and the result fails. -/
theorem C4_witness :
    (∀ x ∈ [(⟨1, "pressure", 3, none, .PENDING, []⟩ : ParamCmd),
            ⟨2, "pressure", 4, none, .PENDING, []⟩],
        withinLimits x.parameter_name x.new_value = true) ∧
    withinLimits (⟨3, "flow_rate", 500, none, .PENDING, []⟩ : ParamCmd).parameter_name
      (⟨3, "flow_rate", 500, none, .PENDING, []⟩ : ParamCmd).new_value = false ∧
    compositeExecute ⟨.PENDING,
        [⟨1, "pressure", 3, none, .PENDING, []⟩,
         ⟨2, "pressure", 4, none, .PENDING, []⟩] ++
        (⟨3, "flow_rate", 500, none, .PENDING, []⟩ : ParamCmd) ::
        [⟨4, "pump_speed", 10, none, .PENDING, []⟩]⟩ =
      { composite := ⟨.PENDING,
          [(⟨1, "pressure", 3, none, .PENDING, []⟩ : ParamCmd),
           ⟨2, "pressure", 4, none, .PENDING, []⟩].map rolledBackCmd ++
          (⟨3, "flow_rate", 500, none, .PENDING, []⟩ : ParamCmd) ::
          [⟨4, "pump_speed", 10, none, .PENDING, []⟩]⟩
        success := false
        rollback_log := ([(⟨1, "pressure", 3, none, .PENDING, []⟩ : ParamCmd),
          ⟨2, "pressure", 4, none, .PENDING, []⟩].map ParamCmd.id).reverse } := by
  refine ⟨?_, ?_, C4_theorem _ _ _ _ ?_ ?_ rfl⟩
  · intro x hx
    fin_cases hx <;> · simp [withinLimits, safetyLimits]; norm_num
  · simp [withinLimits, safetyLimits]; norm_num
  · intro x hx
    fin_cases hx <;> · simp [withinLimits, safetyLimits]; norm_num
  · simp [withinLimits, safetyLimits]; norm_num

/-- C5: a command with some prerequisite not `COMPLETED` is refused by
`CommandInvoker.execute_command`: the result fails, the command's
`execute` is never invoked, the command is untouched, and the history,
undo stack and redo stack are all unchanged. -/
theorem C5_theorem (inv : Invoker) (c : ParamCmd)
    (h : ∃ s ∈ c.prereq_statuses, s ≠ CommandStatus.COMPLETED) :
    executeCommand inv c =
      { invoker := inv, cmd := c, success := false, execute_invoked := false } := by
  have hce : canExecute c = false := by
    rw [canExecute, List.all_eq_false]
    obtain ⟨s, hs, hne⟩ := h
    exact ⟨s, hs, by simpa using hne⟩
  simp [executeCommand, hce]

/-- Witness for C5: a pressure command with one `PENDING` prerequisite is
refused by an empty invoker. -/
theorem C5_witness :
    (∃ s ∈ (⟨7, "pressure", 3, none, .PENDING, [.PENDING]⟩ : ParamCmd).prereq_statuses,
      s ≠ CommandStatus.COMPLETED) ∧
    executeCommand {} ⟨7, "pressure", 3, none, .PENDING, [.PENDING]⟩ =
      { invoker := {}
        cmd := ⟨7, "pressure", 3, none, .PENDING, [.PENDING]⟩
        success := false
        execute_invoked := false } :=
  ⟨⟨.PENDING, by simp, by simp⟩, C5_theorem _ _ ⟨.PENDING, by simp, by simp⟩⟩

theorem paramUndo_fail_eq (c : ParamCmd) (h : (paramUndo c).success = false) :
    paramUndo c = { cmd := c, success := false, writes := [] } := by
  cases hv : c.previous_value with
  | none => simp [paramUndo, hv]
  | some p => simp [paramUndo, hv] at h

theorem paramExecute_fail_eq (c : ParamCmd) (h : (paramExecute c).success = false) :
    paramExecute c = { cmd := c, success := false, writes := [] } := by
  by_cases hw : withinLimits c.parameter_name c.new_value = true
  · rw [paramExecute_ok c hw] at h
    simp at h
  · exact paramExecute_fail c (by simpa using hw)

/-- C6: when `undo_last_command` pops a command whose `undo` fails,
respectively `redo_last_command` pops a command whose `execute` fails,
the command is pushed back and the invoker is exactly as before the call
(the failing body leaves the command itself unchanged), so the operation
can be retried. -/
theorem C6_theorem (invU invR : Invoker) (cU cR : ParamCmd)
    (restU restR : List ParamCmd)
    (hU : invU.undo_stack = restU ++ [cU])
    (hUf : (paramUndo cU).success = false)
    (hR : invR.redo_stack = restR ++ [cR])
    (hRf : (paramExecute cR).success = false) :
    undoLastCommand invU = (invU, false) ∧
    redoLastCommand invR = (invR, false) := by
  constructor
  · have h1 : invU.undo_stack.getLast? = some cU := by rw [hU]; simp
    have h2 : invU.undo_stack.dropLast = restU := by rw [hU]; simp
    simp only [undoLastCommand, h1, h2, paramUndo_fail_eq cU hUf,
      Bool.false_eq_true, if_false]
    rw [← hU]
  · have h1 : invR.redo_stack.getLast? = some cR := by rw [hR]; simp
    have h2 : invR.redo_stack.dropLast = restR := by rw [hR]; simp
    simp only [redoLastCommand, h1, h2, paramExecute_fail_eq cR hRf,
      Bool.false_eq_true, if_false]
    rw [← hR]

/-- Witness for C6: an invoker whose undo stack holds a completed command
with no stored previous value (its `undo` fails) and whose redo stack
holds an out-of-envelope command (its `execute` fails); both calls fail
and leave the invoker unchanged. -/
theorem C6_witness :
    ({ undo_stack := [⟨1, "pressure", 3, none, .COMPLETED, []⟩] } : Invoker).undo_stack
        = [] ++ [⟨1, "pressure", 3, none, .COMPLETED, []⟩] ∧
    (paramUndo ⟨1, "pressure", 3, none, .COMPLETED, []⟩).success = false ∧
    ({ redo_stack := [⟨2, "pressure", 10, none, .UNDONE, []⟩] } : Invoker).redo_stack
        = [] ++ [⟨2, "pressure", 10, none, .UNDONE, []⟩] ∧
    (paramExecute ⟨2, "pressure", 10, none, .UNDONE, []⟩).success = false ∧
    (undoLastCommand { undo_stack := [⟨1, "pressure", 3, none, .COMPLETED, []⟩] } =
        ({ undo_stack := [⟨1, "pressure", 3, none, .COMPLETED, []⟩] }, false) ∧
      redoLastCommand { redo_stack := [⟨2, "pressure", 10, none, .UNDONE, []⟩] } =
        ({ redo_stack := [⟨2, "pressure", 10, none, .UNDONE, []⟩] }, false)) := by
  have hUf : (paramUndo (⟨1, "pressure", 3, none, .COMPLETED, []⟩ : ParamCmd)).success
      = false := by
    simp [paramUndo]
  have hRf : (paramExecute (⟨2, "pressure", 10, none, .UNDONE, []⟩ : ParamCmd)).success
      = false := by
    have hw : withinLimits "pressure" (10:ℚ) = false := by
      simp [withinLimits, safetyLimits]
      norm_num
    simp [paramExecute, hw]
  exact ⟨by simp, hUf, by simp, hRf,
    C6_theorem _ _ _ _ [] [] (by simp) hUf (by simp) hRf⟩

/-- C7: when two readings share a `sensor_id` but come from sources of
different declared priority, the deduplication performed by
`read_all_sensors` keeps exactly the reading whose source priority is
higher. -/
theorem C7_theorem (r1 r2 : Reading) (hid : r1.sensor_id = r2.sensor_id)
    (_hp : r1.system_priority ≠ r2.system_priority) :
    deduplicateSensorReadings [r1, r2] =
      [if r1.system_priority < r2.system_priority then r2 else r1] := by
  have h1 : insertReading [] r1 = [r1] := by simp [insertReading]
  simp only [deduplicateSensorReadings, List.foldl, h1]
  by_cases hgt : r1.system_priority < r2.system_priority
  · simp [insertReading, hid, hgt]
  · simp [insertReading, hid, hgt, not_lt.mp hgt]

/-- Witness for C7: two readings for sensor `s1` from sources of priority
1 and 5; only the priority-5 reading survives. -/
theorem C7_witness :
    (⟨"s1", 1, 10⟩ : Reading).sensor_id = (⟨"s1", 5, 20⟩ : Reading).sensor_id ∧
    (⟨"s1", 1, 10⟩ : Reading).system_priority ≠
      (⟨"s1", 5, 20⟩ : Reading).system_priority ∧
    deduplicateSensorReadings [⟨"s1", 1, 10⟩, ⟨"s1", 5, 20⟩] =
      [(⟨"s1", 5, 20⟩ : Reading)] := by
  refine ⟨rfl, by norm_num, ?_⟩
  have key : deduplicateSensorReadings [⟨"s1", 1, 10⟩, ⟨"s1", 5, 20⟩] =
      [if ((⟨"s1", 1, 10⟩ : Reading)).system_priority <
          ((⟨"s1", 5, 20⟩ : Reading)).system_priority
       then (⟨"s1", 5, 20⟩ : Reading) else ⟨"s1", 1, 10⟩] :=
    C7_theorem _ _ rfl (by norm_num)
  rw [key]
  norm_num

/-- C8: when the registered filters all accept the event, `publish`
returns `True` and every interested observer's notification outcome is
exactly its own handler applied to the transformed event — one observer
raising (an `error` outcome) is recorded for that observer alone and
neither prevents the delivery to any other observer nor fails the
publish call. -/
theorem C8_theorem (filters : List (Event → Bool))
    (transformers : List (Event → Event))
    (observers : List (Event → Except String Unit)) (e : Event)
    (hf : ∀ f ∈ filters, f e = true) :
    publish filters transformers observers e =
      (true, observers.map
        (fun o => o (transformers.foldl (fun ev t => t ev) e))) := by
  have hall : filters.all (fun f => f e) = true := List.all_eq_true.mpr hf
  simp [publish, notifyObservers, hall]

/-- Witness for C8: two observers, the first of which raises; the event is
still delivered to the second and publish returns `True`. -/
theorem C8_witness :
    (∀ f ∈ ([fun _ => true] : List (Event → Bool)),
      f ⟨"threshold_violation", "analyzer", 3⟩ = true) ∧
    publish [fun _ => true] [] [fun _ => Except.error "boom", fun _ => Except.ok ()]
        ⟨"threshold_violation", "analyzer", 3⟩ =
      (true, [Except.error "boom", Except.ok ()]) := by
  refine ⟨by simp, ?_⟩
  rw [C8_theorem _ _ _ _ (by simp)]
  rfl

/-- C9 is violated by the code: executing a
`SystemParameterAdjustmentCommand` whose target (pressure 10) is outside
the safety envelope through `CommandInvoker.execute_command` returns a
failure result but leaves the command with status `EXECUTING` — the
invoker sets `EXECUTING` before calling `execute`, the safety-limit early
return inside `execute` does not change the status, and the invoker's
result-failure branch (unlike its exception branch) never resets it.
The documented lifecycle (`PENDING → EXECUTING → COMPLETED|FAILED`) is
the intent; this is evidence of the slip. -/
theorem C9_theorem :
    (executeCommand {} ⟨1, "pressure", 10, none, .PENDING, []⟩).success = false ∧
    (executeCommand {} ⟨1, "pressure", 10, none, .PENDING, []⟩).cmd.status =
      CommandStatus.EXECUTING := by
  have hw : withinLimits "pressure" (10:ℚ) = false := by
    simp [withinLimits, safetyLimits]
    norm_num
  constructor <;>
    simp [executeCommand, canExecute, paramExecute, hw]

/-- C10: executing a `SystemParameterAdjustmentCommand` whose target value
is outside the parameter's static safety envelope returns a failure
result, performs no parameter write (hence no inter-step pause), leaves
the command — in particular `previous_value = None` — untouched, and
`can_undo()` is still false afterwards. -/
theorem C10_theorem (c : ParamCmd)
    (hout : withinLimits c.parameter_name c.new_value = false)
    (hprev : c.previous_value = none) :
    paramExecute c = { cmd := c, success := false, writes := [] } ∧
    (paramExecute c).cmd.previous_value = none ∧
    paramCanUndo (paramExecute c).cmd = false := by
  have he := paramExecute_fail c hout
  refine ⟨he, ?_, ?_⟩ <;> simp [he, paramCanUndo, hprev]

/-- Witness for C10: adjusting pressure to 10 (envelope (0, 6)) fails
with no writes, no captured previous value, and `can_undo()` false. -/
theorem C10_witness :
    withinLimits (⟨9, "pressure", 10, none, .PENDING, []⟩ : ParamCmd).parameter_name
      (⟨9, "pressure", 10, none, .PENDING, []⟩ : ParamCmd).new_value = false ∧
    (⟨9, "pressure", 10, none, .PENDING, []⟩ : ParamCmd).previous_value = none ∧
    (paramExecute ⟨9, "pressure", 10, none, .PENDING, []⟩ =
        { cmd := ⟨9, "pressure", 10, none, .PENDING, []⟩
          success := false
          writes := [] } ∧
      (paramExecute ⟨9, "pressure", 10, none, .PENDING, []⟩).cmd.previous_value = none ∧
      paramCanUndo (paramExecute ⟨9, "pressure", 10, none, .PENDING, []⟩).cmd = false) := by
  have hw : withinLimits (⟨9, "pressure", 10, none, .PENDING, []⟩ : ParamCmd).parameter_name
      (⟨9, "pressure", 10, none, .PENDING, []⟩ : ParamCmd).new_value = false := by
    simp [withinLimits, safetyLimits]
    norm_num
  exact ⟨hw, rfl, C10_theorem _ hw rfl⟩

end MapeK
